import Mathlib

/-!
Verification development for the vector-search-service repository.

The definitions below are a shallow embedding of the Python sources:

* `src/core/document_processor.py` (chunking, document ids, validation,
  preprocessing, metadata extraction),
* `src/core/job_manager.py` (the in-memory batch job registry),
* `src/core/vector_store.py` (collection and document storage, full-text
  search),
* `src/api/documents.py` and `src/api/search.py` (the ingestion and search
  endpoints), together with the response models of `src/api/models.py`.

Python strings are modelled as `List Char` where character-level slicing
matters and as `String` elsewhere; Python ints are `Int`; Python floats
(progress percentages, scores) are idealised as `ℚ`; Python dicts used as
metadata are association lists.  Loops that are not structurally
terminating in the source (the chunking while-loop) are embedded with
explicit fuel: a `none` result for every fuel value means the source loop
does not terminate.
-/

/-- Metadata values: the subset of Python values the service stores in its
metadata dictionaries (strings, ints, bools). -/
inductive MVal where
  | s : String → MVal
  | i : Int → MVal
  | b : Bool → MVal
deriving DecidableEq, Repr

/-- A Python dict used as metadata, as an association list. -/
abbrev Meta := List (String × MVal)

/-- Python `str(value)` for metadata values. -/
def mvalStr : MVal → String
  | MVal.s v => v
  | MVal.i v => toString v
  | MVal.b v => if v then "True" else "False"

/-- Dict update `d[k] = v` semantics: remove any old binding, append the new
one (models the `{**base, k: v}` merges in the source). -/
def dictInsert (m : Meta) (k : String) (v : MVal) : Meta :=
  m.filter (fun p => p.1 ≠ k) ++ [(k, v)]

/-- The characters Python `str.strip()` removes (ASCII whitespace). -/
def isPyWs (c : Char) : Bool :=
  c = ' ' || c = '\t' || c = '\n' || c = '\r' || c = '\x0b' || c = '\x0c'

/-- Python `s.strip()` on a list of characters. -/
def pyStrip (l : List Char) : List Char :=
  ((l.dropWhile isPyWs).reverse.dropWhile isPyWs).reverse

/-- Python slice `s[a:b]` (step 1), including the clamping of negative and
out-of-range indices. -/
def pySlice (l : List Char) (a b : Int) : List Char :=
  let n : Int := l.length
  let a2 := if a < 0 then max (n + a) 0 else min a n
  let b2 := if b < 0 then max (n + b) 0 else min b n
  (l.take b2.toNat).drop a2.toNat

/-- The word-boundary characters of `DocumentProcessor._find_word_boundary`. -/
def isBoundaryChar (c : Char) : Bool :=
  c = ' ' || c = '\n' || c = '\t' || c = '.' || c = ',' || c = ';' ||
  c = ':' || c = '!' || c = '?'

/-- Scan `text` at indices `stop + k, stop + k - 1, ..., stop + 1`
(descending, mirroring `range(position, max(0, position - 100), -1)`),
returning `i + 1` for the first boundary character found. -/
def scanIdx (text : List Char) (stop : Nat) : Nat → Option Nat
  | 0 => none
  | k + 1 =>
    if isBoundaryChar (text.getD (stop + k + 1) ' ') then some (stop + k + 2)
    else scanIdx text stop k

/-- `DocumentProcessor._find_word_boundary(text, position)`: look backward
from `position` (at most 100 characters) for a whitespace or punctuation
character; return the index after it, or `position` if none is found.  For
`position <= 0` the Python range is empty and `position` is returned. -/
def findWordBoundary (text : List Char) (position : Int) : Int :=
  if position ≤ 0 then position
  else
    match scanIdx text (position.toNat - 100) (position.toNat - (position.toNat - 100)) with
    | some r => (r : Int)
    | none => position

/-- A chunk produced by `DocumentProcessor.chunk_document`
(the `DocumentChunk` dataclass). -/
structure Chunk where
  content : List Char
  chunkIndex : Nat
  startChar : Int
  endChar : Int
  metadata : Meta
deriving DecidableEq, Repr

/-- The merged metadata attached to each chunk:
`{**(metadata or {}), chunk_size, is_first_chunk, is_last_chunk}`. -/
def mkChunkMeta (base : Meta) (csz : Nat) (isFirst isLast : Bool) : Meta :=
  dictInsert (dictInsert (dictInsert base "chunk_size" (MVal.i csz))
    "is_first_chunk" (MVal.b isFirst)) "is_last_chunk" (MVal.b isLast)

/-- The end position of the chunk starting at `start`: candidate end
`min (start + chunk_size, len)`, adjusted backward to a word boundary when
it falls before the end of the content. -/
def chunkEnd (content : List Char) (cs start : Int) : Int :=
  let end0 := min (start + cs) (content.length : Int)
  if end0 < (content.length : Int) then findWordBoundary content end0 else end0

/-- The `while start < len(content)` loop of `chunk_document`, with explicit
fuel.  Each iteration slices and strips a chunk, appends it if non-empty,
advances `start` to `end - overlap` and breaks when `start >= end`.
`none` means the fuel ran out before the loop exited. -/
def chunkLoop (content : List Char) (cs ov : Int) (md : Meta) :
    Nat → Int → Nat → List Chunk → Option (List Chunk)
  | 0, _, _, _ => none
  | fuel + 1, start, idx, acc =>
    if start < (content.length : Int) then
      let e := chunkEnd content cs start
      let cc := pyStrip (pySlice content start e)
      let acc2 :=
        if cc = [] then acc
        else acc ++ [⟨cc, idx, start, e,
          mkChunkMeta md cc.length (idx == 0) (decide ((content.length : Int) ≤ e))⟩]
      let idx2 := if cc = [] then idx else idx + 1
      let start2 := e - ov
      if start2 ≥ e then some acc2
      else chunkLoop content cs ov md fuel start2 idx2 acc2
    else some acc

/-- Python `x or default` for the optional int arguments of
`chunk_document`: `None` and `0` both fall back to the default. -/
def pyOrInt (o : Option Int) (d : Int) : Int :=
  match o with
  | none => d
  | some v => if v = 0 then d else v

/-- The settings fields used by the embedded components
(`src/config/settings.py`, environment defaults). -/
structure AppSettings where
  documentChunkSize : Int
  documentChunkOverlap : Int
  maxDocumentSizeMb : Int
  batchCommitSize : Nat
  maxBatchDocuments : Nat
deriving DecidableEq, Repr

/-- The default settings values (chunk size 1000, overlap 200, max document
size 5 MB, batch commit size 10, max batch documents 50). -/
def defaultSettings : AppSettings := ⟨1000, 200, 5, 10, 50⟩

/-- `DocumentProcessor.chunk_document(content, chunk_size, overlap, metadata)`
with explicit fuel for the while-loop.  Blank content returns `[]` at once;
otherwise the defaulted chunk size and overlap are computed (`overlap`
clamped to `chunk_size // 2`, Python floor division) and the loop runs from
`start = 0`. -/
def chunkDocument (st : AppSettings) (fuel : Nat) (content : List Char)
    (csOpt ovOpt : Option Int) (mdOpt : Option Meta) : Option (List Chunk) :=
  if pyStrip content = [] then some []
  else
    let cs := pyOrInt csOpt st.documentChunkSize
    let ov := min (pyOrInt ovOpt st.documentChunkOverlap) (Int.fdiv cs 2)
    chunkLoop content cs ov (mdOpt.getD []) fuel 0 0 []

theorem scanIdx_le (text : List Char) (stop : Nat) :
    ∀ (k r : Nat), scanIdx text stop k = some r → r ≤ stop + k + 1 := by
  intro k
  induction k with
  | zero => intro r h; simp [scanIdx] at h
  | succ k ih =>
    intro r h
    rw [scanIdx] at h
    by_cases hb : isBoundaryChar (text.getD (stop + k + 1) ' ') = true
    · rw [if_pos hb] at h
      injection h with h2
      omega
    · rw [if_neg hb] at h
      have := ih r h
      omega

theorem findWordBoundary_le (text : List Char) (position : Int) :
    findWordBoundary text position ≤ position + 1 := by
  rw [findWordBoundary]
  by_cases hp : position ≤ 0
  · rw [if_pos hp]; omega
  · rw [if_neg hp]
    rcases hs : scanIdx text (position.toNat - 100)
        (position.toNat - (position.toNat - 100)) with _ | r
    · show position ≤ position + 1
      omega
    · have h1 := scanIdx_le text (position.toNat - 100)
        (position.toNat - (position.toNat - 100)) r hs
      have h2 : (position.toNat : Int) = position := Int.toNat_of_nonneg (by omega)
      show (r : Int) ≤ position + 1
      omega

theorem chunkEnd_le (content : List Char) (cs start : Int) :
    chunkEnd content cs start ≤ (content.length : Int) := by
  rw [chunkEnd]
  by_cases h : min (start + cs) (content.length : Int) < (content.length : Int)
  · rw [if_pos h]
    have := findWordBoundary_le content (min (start + cs) (content.length : Int))
    omega
  · rw [if_neg h]
    exact min_le_right _ _

theorem chunkLoop_eq_none (content : List Char) (cs ov : Int) (md : Meta)
    (hov : 0 < ov) :
    ∀ (fuel : Nat) (start : Int) (idx : Nat) (acc : List Chunk),
      start < (content.length : Int) →
      chunkLoop content cs ov md fuel start idx acc = none := by
  intro fuel
  induction fuel with
  | zero => intro start idx acc _; rfl
  | succ n ih =>
    intro start idx acc h
    rw [chunkLoop, if_pos h]
    have he := chunkEnd_le content cs start
    rw [if_neg (by omega : ¬ chunkEnd content cs start - ov ≥ chunkEnd content cs start)]
    exact ih _ _ _ (by omega)

/-- C1: the claim states that `chunk_document` terminates for every content,
chunk size, overlap and metadata.  It does not: with the default chunk size
1000 and overlap 200 on content `"hello"`, the loop reaches the state
`start = -195, end = 5` and repeats it forever (the guard `start >= end`
never fires because `start = end - overlap < end`, and `start < len`
always holds), so the embedded loop returns `none` for every fuel value. -/
theorem claim_c1_chunk_document_not_terminating :
    ∀ (fuel : Nat),
      chunkDocument defaultSettings fuel "hello".toList (some 1000) (some 200) none
        = none := by
  intro fuel
  have h : chunkDocument defaultSettings fuel "hello".toList (some 1000) (some 200) none
      = chunkLoop "hello".toList 1000 200 [] fuel 0 0 [] := by
    rw [chunkDocument, if_neg (by decide)]
    norm_num [pyOrInt, defaultSettings]
    rw [show min (200 : Int) (Int.fdiv 1000 2) = 200 by decide]
  rw [h]
  exact chunkLoop_eq_none "hello".toList 1000 200 [] (by decide) fuel 0 0 [] (by decide)

/-- C2: every chunk list actually returned by `chunk_document` (for a
positive chunk size) has 0-based, sequential, strictly increasing
`chunk_index`, non-decreasing `start_char`, and no chunk whose content is
empty after trimming.  (Terminating runs require the effective overlap to
be non-positive and return at most one chunk; with a positive effective
overlap the loop never returns, see C1.) -/
theorem claim_c2_chunk_invariants (st : AppSettings) (fuel : Nat)
    (content : List Char) (cs : Int) (ovOpt : Option Int) (mdOpt : Option Meta)
    (chunks : List Chunk) (hcs : 0 < cs)
    (h : chunkDocument st fuel content (some cs) ovOpt mdOpt = some chunks) :
    chunks.map Chunk.chunkIndex = List.range chunks.length ∧
    List.Chain' (· ≤ ·) (chunks.map Chunk.startChar) ∧
    ∀ c ∈ chunks, c.content ≠ [] := by
  rw [chunkDocument] at h
  by_cases hstrip : pyStrip content = []
  · rw [if_pos hstrip] at h
    injection h with h
    subst h
    refine ⟨rfl, List.chain'_nil, by intro c hc; cases hc⟩
  · rw [if_neg hstrip] at h
    simp only [pyOrInt, if_neg (show ¬ cs = 0 by omega)] at h
    have hlen : (0 : Int) < (content.length : Int) := by
      cases content with
      | nil => exact absurd rfl hstrip
      | cons a l => simp
    obtain ⟨ov, hoveq⟩ : ∃ ov, min (match ovOpt with
        | none => st.documentChunkOverlap
        | some v => if v = 0 then st.documentChunkOverlap else v)
        (Int.fdiv cs 2) = ov := ⟨_, rfl⟩
    rw [hoveq] at h
    by_cases hov : 0 < ov
    · rw [chunkLoop_eq_none content cs ov (mdOpt.getD []) hov fuel 0 0 [] hlen] at h
      cases h
    · cases fuel with
      | zero => cases h
      | succ m =>
        rw [chunkLoop, if_pos hlen] at h
        have he := chunkEnd_le content cs 0
        rw [if_pos (by omega : chunkEnd content cs 0 - ov ≥ chunkEnd content cs 0)] at h
        by_cases hcc : pyStrip (pySlice content 0 (chunkEnd content cs 0)) = []
        · rw [if_pos hcc] at h
          injection h with h
          subst h
          refine ⟨rfl, List.chain'_nil, by intro c hc; cases hc⟩
        · rw [if_neg hcc] at h
          injection h with h
          subst h
          refine ⟨by simp [List.range_succ], by simp, ?_⟩
          intro c hc
          simp only [List.nil_append, List.mem_singleton] at hc
          subst hc
          exact hcc

/-- Witness for C2: a concrete terminating run (chunk size 5, overlap -1 on
content `"hi"`) returning one chunk that satisfies all three invariants. -/
theorem claim_c2_chunk_invariants_witness :
    (0 : Int) < 5 ∧
    chunkDocument defaultSettings 3 "hi".toList (some 5) (some (-1)) none =
      some [⟨['h', 'i'], 0, 0, 2,
        [("chunk_size", MVal.i 2), ("is_first_chunk", MVal.b true),
         ("is_last_chunk", MVal.b true)]⟩] ∧
    (([⟨['h', 'i'], 0, 0, 2,
        [("chunk_size", MVal.i 2), ("is_first_chunk", MVal.b true),
         ("is_last_chunk", MVal.b true)]⟩] : List Chunk).map Chunk.chunkIndex =
      List.range 1 ∧
     List.Chain' (· ≤ ·) (([⟨['h', 'i'], 0, 0, 2,
        [("chunk_size", MVal.i 2), ("is_first_chunk", MVal.b true),
         ("is_last_chunk", MVal.b true)]⟩] : List Chunk).map Chunk.startChar) ∧
     ∀ c ∈ ([⟨['h', 'i'], 0, 0, 2,
        [("chunk_size", MVal.i 2), ("is_first_chunk", MVal.b true),
         ("is_last_chunk", MVal.b true)]⟩] : List Chunk), c.content ≠ []) :=
  ⟨by decide, by decide,
   claim_c2_chunk_invariants defaultSettings 3 "hi".toList 5 (some (-1)) none
     _ (by decide) (by decide)⟩

/-- Job lifecycle states (`JobStatus` enum in `src/core/job_manager.py`). -/
inductive JStatus where
  | queued
  | processing
  | completed
  | failed
  | cancelled
deriving DecidableEq, Repr

/-- One per-document result aggregated on a batch job (`JobResult`). -/
structure JobResultM where
  documentId : Option String
  documentIndex : Int
  status : String
  chunksCreated : Int
  embeddingCount : Int
  error : Option String
  processingTimeMs : Int
deriving DecidableEq, Repr

/-- A batch job record (`BatchJob` dataclass); timestamps are abstract
instants modelled as integers, `progress_percentage` as a rational. -/
structure BatchJobM where
  id : String
  collectionName : String
  status : JStatus
  createdAt : Int
  startedAt : Option Int
  completedAt : Option Int
  totalDocuments : Int
  processedDocuments : Int
  successfulDocuments : Int
  failedDocuments : Int
  results : List JobResultM
  errorMessage : Option String
  progressPercentage : ℚ
deriving DecidableEq

/-- The JobManager state: the `self.jobs` dict as an association list and
the keys of `self._running_tasks`. -/
structure JMState where
  jobs : List (String × BatchJobM)
  runningTasks : List String
deriving DecidableEq

/-- Update the entry for `jid` in a job registry by `f`, other entries
unchanged (in-place mutation of `self.jobs[job_id]`). -/
def regUpdate (reg : List (String × BatchJobM)) (jid : String)
    (f : BatchJobM → BatchJobM) : List (String × BatchJobM) :=
  reg.map (fun kv => if kv.1 = jid then (kv.1, f kv.2) else kv)

/-- `JobManager.update_job_progress(job_id, processed, total)`: a no-op on
an unknown job; otherwise sets `processed_documents` and `total_documents`,
and recomputes `progress_percentage = processed / total * 100` only when
`total > 0` (otherwise the old percentage is kept). -/
def updateJobProgress (jid : String) (p t : Int)
    (reg : List (String × BatchJobM)) : List (String × BatchJobM) :=
  match reg.lookup jid with
  | none => reg
  | some _ =>
    regUpdate reg jid (fun j =>
      let j1 := { j with processedDocuments := p, totalDocuments := t }
      if 0 < t then { j1 with progressPercentage := (p : ℚ) / (t : ℚ) * 100 }
      else j1)

/-- `JobManager.cancel_job(job_id)`: false on an unknown or terminal job
(state untouched); otherwise removes the running task, marks the job
`cancelled`, stamps `completed_at` and returns true. -/
def cancelJob (now : Int) (jid : String) (st : JMState) : Bool × JMState :=
  match st.jobs.lookup jid with
  | none => (false, st)
  | some j =>
    if j.status = JStatus.completed ∨ j.status = JStatus.failed ∨
        j.status = JStatus.cancelled then
      (false, st)
    else
      (true,
       { jobs := regUpdate st.jobs jid
           (fun j2 => { j2 with status := JStatus.cancelled, completedAt := some now }),
         runningTasks := st.runningTasks.filter (fun t => t ≠ jid) })

theorem lookup_regUpdate (reg : List (String × BatchJobM)) (jid : String)
    (f : BatchJobM → BatchJobM) :
    (regUpdate reg jid f).lookup jid = (reg.lookup jid).map f := by
  induction reg with
  | nil => rfl
  | cons kv rest ih =>
    rw [regUpdate, List.map_cons]
    rw [regUpdate] at ih
    by_cases h : kv.1 = jid
    · rw [if_pos h]
      have hb : (jid == kv.1) = true := beq_iff_eq.mpr h.symm
      simp [List.lookup, hb]
    · rw [if_neg h]
      have hb : (jid == kv.1) = false := beq_eq_false_iff_ne.mpr (Ne.symm h)
      rcases kv with ⟨k, v⟩
      simp only [List.lookup, hb]
      exact ih

/-- A concrete processing job whose progress percentage is already 50. -/
def cexJob : BatchJobM :=
  ⟨"j1", "col", JStatus.processing, 0, some 1, none, 10, 5, 5, 0, [], none, 50⟩

/-- A registry holding just `cexJob` under key `"j1"`. -/
def cexReg : List (String × BatchJobM) := [("j1", cexJob)]

/-- Counterexample to C3: `update_job_progress` with `total = 0` does not
set `progress_percentage` to 0 — the code only assigns the percentage under
`if total > 0`, so the previous value (here 50) survives. -/
theorem claim_c3_counterexample :
    (cexReg.lookup "j1").isSome = true ∧
    ((updateJobProgress "j1" 3 0 cexReg).lookup "j1").map
      BatchJobM.progressPercentage = some 50 ∧
    (50 : ℚ) ≠ 0 := by
  refine ⟨by decide, ?_, by decide⟩
  decide

/-- C3 (amended): after `update_job_progress(job_id, p, t)` on a registered
job, `progress_percentage` is `p / t * 100` when `t > 0` and is left
unchanged (not reset to 0) otherwise. -/
theorem claim_c3_update_progress (reg : List (String × BatchJobM))
    (jid : String) (p t : Int) (j : BatchJobM)
    (h : reg.lookup jid = some j) :
    ((updateJobProgress jid p t reg).lookup jid).map BatchJobM.progressPercentage =
      some (if 0 < t then (p : ℚ) / (t : ℚ) * 100 else j.progressPercentage) := by
  simp only [updateJobProgress, h]
  rw [lookup_regUpdate, h]
  by_cases ht : 0 < t
  · simp [ht]
  · simp [ht]

/-- Witness for C3: updating `cexJob` with `p = 1, t = 4` yields
percentage 25. -/
theorem claim_c3_update_progress_witness :
    cexReg.lookup "j1" = some cexJob ∧
    ((updateJobProgress "j1" 1 4 cexReg).lookup "j1").map
        BatchJobM.progressPercentage =
      some (if (0 : Int) < 4 then ((1 : Int) : ℚ) / ((4 : Int) : ℚ) * 100
            else cexJob.progressPercentage) :=
  ⟨by decide, claim_c3_update_progress cexReg "j1" 1 4 cexJob (by decide)⟩

/-- C6: cancelling a terminal job returns false and leaves the whole
manager state (hence every field of the job) unchanged; cancelling a
queued or processing job returns true and the job is re-registered as
`cancelled` with `completed_at` stamped. -/
theorem claim_c6_cancel_job (now : Int) (jid : String) (st : JMState)
    (j : BatchJobM) (h : st.jobs.lookup jid = some j) :
    ((j.status = JStatus.completed ∨ j.status = JStatus.failed ∨
        j.status = JStatus.cancelled) →
      cancelJob now jid st = (false, st)) ∧
    ((j.status = JStatus.queued ∨ j.status = JStatus.processing) →
      (cancelJob now jid st).1 = true ∧
      (cancelJob now jid st).2.jobs.lookup jid =
        some { j with status := JStatus.cancelled, completedAt := some now }) := by
  constructor
  · intro hterm
    simp only [cancelJob, h, if_pos hterm]
  · intro hact
    have hnterm : ¬(j.status = JStatus.completed ∨ j.status = JStatus.failed ∨
        j.status = JStatus.cancelled) := by
      rcases hact with h1 | h1 <;> rw [h1] <;> decide
    simp only [cancelJob, h, if_neg hnterm]
    refine ⟨trivial, ?_⟩
    rw [lookup_regUpdate, h]
    rfl

/-- A concrete completed (terminal) job. -/
def doneJob : BatchJobM :=
  ⟨"a", "col", JStatus.completed, 0, some 1, some 2, 3, 3, 3, 0, [], none, 100⟩

/-- A concrete queued job. -/
def queuedJob : BatchJobM :=
  ⟨"b", "col", JStatus.queued, 1, none, none, 4, 0, 0, 0, [], none, 0⟩

/-- A concrete manager state holding a completed job and a queued job. -/
def c6State : JMState := ⟨[("a", doneJob), ("b", queuedJob)], ["b"]⟩

/-- Witness for C6: cancelling the completed job `"a"` returns false and
leaves the state untouched; cancelling the queued job `"b"` returns true
and re-registers it as cancelled. -/
theorem claim_c6_cancel_job_witness :
    c6State.jobs.lookup "a" = some doneJob ∧
    cancelJob 7 "a" c6State = (false, c6State) ∧
    c6State.jobs.lookup "b" = some queuedJob ∧
    (cancelJob 7 "b" c6State).1 = true ∧
    (cancelJob 7 "b" c6State).2.jobs.lookup "b" =
      some { queuedJob with status := JStatus.cancelled, completedAt := some 7 } :=
  ⟨by decide,
   (claim_c6_cancel_job 7 "a" c6State doneJob (by decide)).1 (Or.inl (by decide)),
   by decide,
   ((claim_c6_cancel_job 7 "b" c6State queuedJob (by decide)).2 (Or.inl (by decide))).1,
   ((claim_c6_cancel_job 7 "b" c6State queuedJob (by decide)).2 (Or.inl (by decide))).2⟩

/-- Truncate to a 32-bit word. -/
def w32 (x : Nat) : Nat := x % 4294967296

/-- Right rotation of a 32-bit word by `n`. -/
def rotr32 (n x : Nat) : Nat := w32 (Nat.lor (x >>> n) (x <<< (32 - n)))

/-- Bitwise complement of a 32-bit word. -/
def bnot32 (x : Nat) : Nat := Nat.xor 4294967295 x

/-- The 64 SHA-256 round constants. -/
def shaK : List Nat :=
  [1116352408, 1899447441, 3049323471, 3921009573, 961987163,
   1508970993, 2453635748, 2870763221, 3624381080, 310598401,
   607225278, 1426881987, 1925078388, 2162078206, 2614888103,
   3248222580, 3835390401, 4022224774, 264347078, 604807628,
   770255983, 1249150122, 1555081692, 1996064986, 2554220882,
   2821834349, 2952996808, 3210313671, 3336571891, 3584528711,
   113926993, 338241895, 666307205, 773529912, 1294757372,
   1396182291, 1695183700, 1986661051, 2177026350, 2456956037,
   2730485921, 2820302411, 3259730800, 3345764771, 3516065817,
   3600352804, 4094571909, 275423344, 430227734, 506948616,
   659060556, 883997877, 958139571, 1322822218, 1537002063,
   1747873779, 1955562222, 2024104815, 2227730452, 2361852424,
   2428436474, 2756734187, 3204031479, 3329325298]

/-- The 8-word SHA-256 working state. -/
structure Hash8 where
  a : Nat
  b : Nat
  c : Nat
  d : Nat
  e : Nat
  f : Nat
  g : Nat
  h : Nat

/-- The SHA-256 initial hash value. -/
def shaH0 : Hash8 :=
  ⟨1779033703, 3144134277, 1013904242, 2773480762,
   1359893119, 2600822924, 528734635, 1541459225⟩

/-- Small sigma 0. -/
def smallS0 (x : Nat) : Nat := Nat.xor (rotr32 7 x) (Nat.xor (rotr32 18 x) (x >>> 3))

/-- Small sigma 1. -/
def smallS1 (x : Nat) : Nat := Nat.xor (rotr32 17 x) (Nat.xor (rotr32 19 x) (x >>> 10))

/-- Big sigma 0. -/
def bigS0 (x : Nat) : Nat := Nat.xor (rotr32 2 x) (Nat.xor (rotr32 13 x) (rotr32 22 x))

/-- Big sigma 1. -/
def bigS1 (x : Nat) : Nat := Nat.xor (rotr32 6 x) (Nat.xor (rotr32 11 x) (rotr32 25 x))

/-- One SHA-256 compression round for a round constant and schedule word. -/
def shaRound (st : Hash8) (kw : Nat × Nat) : Hash8 :=
  let t1 := w32 (st.h + bigS1 st.e + Nat.xor (Nat.land st.e st.f)
    (Nat.land (bnot32 st.e) st.g) + kw.1 + kw.2)
  let t2 := w32 (bigS0 st.a + Nat.xor (Nat.land st.a st.b)
    (Nat.xor (Nat.land st.a st.c) (Nat.land st.b st.c)))
  ⟨w32 (t1 + t2), st.a, st.b, st.c, w32 (st.d + t1), st.e, st.f, st.g⟩

/-- Extend the 16 message words by `k` more schedule words. -/
def extendW : Nat → List Nat → List Nat
  | 0, w => w
  | k + 1, w =>
    extendW k (w ++ [w32 (smallS1 (w.getD (w.length - 2) 0) + w.getD (w.length - 7) 0 +
      smallS0 (w.getD (w.length - 15) 0) + w.getD (w.length - 16) 0)])

/-- Big-endian 32-bit words from a list of bytes. -/
def toWordsBE : List Nat → List Nat
  | b0 :: b1 :: b2 :: b3 :: rest =>
    (b0 * 16777216 + b1 * 65536 + b2 * 256 + b3) :: toWordsBE rest
  | _ => []

/-- Split a byte list into 64-byte blocks. -/
def toBlocks (l : List Nat) : List (List Nat) :=
  match l with
  | [] => []
  | x :: xs => ((x :: xs).take 64) :: toBlocks (xs.drop 63)
termination_by l.length
decreasing_by simp [List.length_drop]; omega

/-- Process one 64-byte block. -/
def shaBlock (st : Hash8) (block : List Nat) : Hash8 :=
  let w := extendW 48 (toWordsBE block)
  let r := (shaK.zip w).foldl shaRound st
  ⟨w32 (st.a + r.a), w32 (st.b + r.b), w32 (st.c + r.c), w32 (st.d + r.d),
   w32 (st.e + r.e), w32 (st.f + r.f), w32 (st.g + r.g), w32 (st.h + r.h)⟩

/-- Big-endian bytes of a value, `k` bytes wide. -/
def natBytesBE : Nat → Nat → List Nat
  | 0, _ => []
  | k + 1, v => (v >>> (8 * k)) % 256 :: natBytesBE k v

/-- SHA-256 padding: append `0x80`, zeros to 56 mod 64, then the bit length
as 8 big-endian bytes. -/
def shaPad (msg : List Nat) : List Nat :=
  msg ++ [0x80] ++ List.replicate ((64 + 56 - (msg.length + 1) % 64) % 64) 0 ++
    natBytesBE 8 (msg.length * 8)

/-- The 32 digest bytes of a final hash state. -/
def hashBytes (st : Hash8) : List Nat :=
  natBytesBE 4 st.a ++ natBytesBE 4 st.b ++ natBytesBE 4 st.c ++ natBytesBE 4 st.d ++
  natBytesBE 4 st.e ++ natBytesBE 4 st.f ++ natBytesBE 4 st.g ++ natBytesBE 4 st.h

/-- SHA-256 digest bytes of a byte message. -/
def sha256 (msg : List Nat) : List Nat :=
  hashBytes ((toBlocks (shaPad msg)).foldl shaBlock shaH0)

/-- Lowercase hex digit. -/
def hexDigit (n : Nat) : Char :=
  "0123456789abcdef".toList.getD n '0'

/-- Two lowercase hex characters of a byte. -/
def byteHex (b : Nat) : List Char := [hexDigit (b / 16 % 16), hexDigit (b % 16)]

/-- The characters of `hashlib.sha256(...).hexdigest()`. -/
def sha256hexChars (msg : List Nat) : List Char :=
  ((sha256 msg).map byteHex).flatten

/-- UTF-8 encoding of one character (Python `str.encode()`). -/
def utf8EncodeChar (c : Char) : List Nat :=
  let v := c.toNat
  if v < 128 then [v]
  else if v < 2048 then [192 + v / 64, 128 + v % 64]
  else if v < 65536 then [224 + v / 4096, 128 + v / 64 % 64, 128 + v % 64]
  else [240 + v / 262144, 128 + v / 4096 % 64, 128 + v / 64 % 64, 128 + v % 64]

/-- UTF-8 bytes of a string. -/
def utf8Bytes (l : List Char) : List Nat := (l.map utf8EncodeChar).flatten

/-- The metadata keys that feed the document id hash, in source order. -/
def relevantKeys : List String := ["title", "source", "author", "type"]

/-- Append one relevant key to the hash input if present:
`hash_input += f"_{key}:{metadata[key]}"`. -/
def hashStep (m : Meta) (acc : String) (k : String) : String :=
  match m.lookup k with
  | some v => acc ++ "_" ++ k ++ ":" ++ mvalStr v
  | none => acc

/-- The hash input string of `generate_document_id`: the content, extended
with the present relevant metadata fields (a falsy metadata value — `None`
or an empty dict — contributes nothing). -/
def hashInputStr (content : String) (md : Option Meta) : String :=
  match md with
  | none => content
  | some m => if m.isEmpty then content else relevantKeys.foldl (hashStep m) content

/-- `DocumentProcessor.generate_document_id(content, metadata)`: the first
16 characters of the SHA-256 hex digest of the hash input. -/
def generateDocumentId (content : String) (md : Option Meta) : String :=
  String.mk ((sha256hexChars (utf8Bytes (hashInputStr content md).toList)).take 16)

/-- Lookup of a relevant key through the optional metadata. -/
def metaLookup (md : Option Meta) (k : String) : Option MVal :=
  (md.getD []).lookup k

theorem foldl_hashStep_congr (m1 m2 : Meta) :
    ∀ (l : List String) (acc : String),
      (∀ k ∈ l, m1.lookup k = m2.lookup k) →
      l.foldl (hashStep m1) acc = l.foldl (hashStep m2) acc := by
  intro l
  induction l with
  | nil => intro acc _; rfl
  | cons k rest ih =>
    intro acc hk
    rw [List.foldl_cons, List.foldl_cons]
    have h1 : hashStep m1 acc k = hashStep m2 acc k := by
      rw [hashStep, hashStep, hk k (List.mem_cons_self k rest)]
    rw [h1]
    exact ih _ (fun k2 hk2 => hk k2 (List.mem_cons_of_mem k hk2))

theorem hashInputStr_eq_foldl (content : String) (md : Option Meta) :
    hashInputStr content md =
      relevantKeys.foldl (hashStep (md.getD [])) content := by
  rcases md with _ | m
  · rfl
  · rw [hashInputStr]
    by_cases hm : m.isEmpty
    · rw [if_pos hm]
      have : m = [] := List.isEmpty_iff.mp hm
      subst this
      rfl
    · rw [if_neg hm]
      rfl

theorem hashInputStr_congr (content : String) (md1 md2 : Option Meta)
    (h : ∀ k ∈ relevantKeys, metaLookup md1 k = metaLookup md2 k) :
    hashInputStr content md1 = hashInputStr content md2 := by
  rw [hashInputStr_eq_foldl, hashInputStr_eq_foldl]
  exact foldl_hashStep_congr _ _ relevantKeys content h

theorem length_flatten_map_byteHex (l : List Nat) :
    ((l.map byteHex).flatten).length = 2 * l.length := by
  induction l with
  | nil => rfl
  | cons b rest ih =>
    rw [List.map_cons, List.flatten_cons, List.length_append, ih]
    show 2 + 2 * rest.length = 2 * (rest.length + 1)
    omega

theorem sha256_length (msg : List Nat) : (sha256 msg).length = 32 := by
  rw [sha256, hashBytes]
  rfl

theorem sha256hexChars_length (msg : List Nat) :
    (sha256hexChars msg).length = 64 := by
  rw [sha256hexChars, length_flatten_map_byteHex, sha256_length]

theorem generateDocumentId_length (content : String) (md : Option Meta) :
    (generateDocumentId content md).length = 16 := by
  rw [generateDocumentId]
  show (List.take 16 (sha256hexChars (utf8Bytes (hashInputStr content md).toList))).length = 16
  rw [List.length_take, sha256hexChars_length]
  omega

/-- Counterexample to C7: the hash input concatenation is ambiguous, so a
change of content does not always change the id.  Content `"a"` with
metadata `{title: "x"}` and content `"a_title:x"` with no metadata hash the
same input string and therefore get the same document id. -/
theorem claim_c7_counterexample :
    generateDocumentId "a" (some [("title", MVal.s "x")]) =
      generateDocumentId "a_title:x" none ∧
    ("a" : String) ≠ "a_title:x" := by
  constructor
  · rw [generateDocumentId, generateDocumentId,
      show hashInputStr "a" (some [("title", MVal.s "x")]) =
        hashInputStr "a_title:x" none from by decide]
  · decide

/-- C7 (amended): `generate_document_id` is a deterministic function of the
content and the metadata fields title, source, author, type — equal content
and equal values (including absence) of those fields give the same id, a
16-character prefix of the SHA-256 hex digest.  The distinctness half of
the original claim fails: different content or field values can collide
(see the counterexample). -/
theorem claim_c7_generate_document_id (content : String) (md1 md2 : Option Meta)
    (h : ∀ k ∈ relevantKeys, metaLookup md1 k = metaLookup md2 k) :
    generateDocumentId content md1 = generateDocumentId content md2 ∧
    (generateDocumentId content md1).length = 16 := by
  constructor
  · rw [generateDocumentId, generateDocumentId, hashInputStr_congr content md1 md2 h]
  · exact generateDocumentId_length content md1

/-- Witness for C7: metadata dicts that differ in irrelevant keys but agree
on the four relevant ones produce the same id. -/
theorem claim_c7_generate_document_id_witness :
    (∀ k ∈ relevantKeys,
      metaLookup (some [("title", MVal.s "t"), ("extra", MVal.i 1)]) k =
        metaLookup (some [("title", MVal.s "t"), ("other", MVal.b true)]) k) ∧
    generateDocumentId "doc" (some [("title", MVal.s "t"), ("extra", MVal.i 1)]) =
      generateDocumentId "doc" (some [("title", MVal.s "t"), ("other", MVal.b true)]) ∧
    (generateDocumentId "doc" (some [("title", MVal.s "t"), ("extra", MVal.i 1)])).length
      = 16 :=
  ⟨by decide,
   (claim_c7_generate_document_id "doc"
     (some [("title", MVal.s "t"), ("extra", MVal.i 1)])
     (some [("title", MVal.s "t"), ("other", MVal.b true)]) (by decide)).1,
   (claim_c7_generate_document_id "doc"
     (some [("title", MVal.s "t"), ("extra", MVal.i 1)])
     (some [("title", MVal.s "t"), ("other", MVal.b true)]) (by decide)).2⟩

/-- Split on runs of ASCII whitespace, dropping empties, accumulator of the
current word held reversed (Python `str.split()` with no argument). -/
def splitWsAux : List Char → List Char → List (List Char)
  | [], cur => if cur = [] then [] else [cur.reverse]
  | c :: rest, cur =>
    if isPyWs c then
      (if cur = [] then splitWsAux rest [] else cur.reverse :: splitWsAux rest [])
    else splitWsAux rest (c :: cur)

/-- Python `content.split()`. -/
def pySplitWs (l : List Char) : List (List Char) := splitWsAux l []

/-- Split on each newline, keeping empty lines. -/
def splitNlAux : List Char → List Char → List (List Char)
  | [], cur => [cur.reverse]
  | c :: rest, cur =>
    if c = '\n' then cur.reverse :: splitNlAux rest []
    else splitNlAux rest (c :: cur)

/-- Python `content.split('\n')`. -/
def splitNl (l : List Char) : List (List Char) := splitNlAux l []

/-- `DocumentProcessor.preprocess_content`: collapse whitespace runs to
single spaces, drop blank lines, strip control characters other than
newline and tab. -/
def preprocessContent (l : List Char) : List Char :=
  let s1 := List.intercalate [' '] (pySplitWs l)
  let s2 := List.intercalate ['\n']
    (((splitNl s1).filter (fun ln => pyStrip ln ≠ [])).map pyStrip)
  s2.filter (fun c => 32 ≤ c.toNat || c = '\n' || c = '\t')

/-- First index at which `pat` occurs in the scanned list, counting from
`i`. -/
def findSubAux (pat : List Char) : List Char → Nat → Option Nat
  | [], i => if pat = [] then some i else none
  | c :: rest, i =>
    if pat.isPrefixOf (c :: rest) then some i
    else findSubAux pat rest (i + 1)

/-- Python substring containment `pat in hay`. -/
def containsSub (hay pat : List Char) : Bool :=
  (findSubAux pat hay 0).isSome

/-- `DocumentProcessor._looks_like_code`. -/
def looksLikeCode (content : List Char) : Bool :=
  ["def ", "class ", "import ", "from ", "function", "#!/", "<?", "/*",
   "//", "<!--", "SELECT", "FROM"].any (fun p => containsSub content p.toList)

/-- `DocumentProcessor._looks_like_markdown`. -/
def looksLikeMarkdown (content : List Char) : Bool :=
  ["# ", "## ", "### ", "**", "*", "`", "```", "[", "]("].any
    (fun p => containsSub content p.toList)

/-- `DocumentProcessor._looks_like_html` (checked on the lowercased text). -/
def looksLikeHtml (content : List Char) : Bool :=
  ["<html", "<div", "<p>", "<h1", "<h2", "<script", "<style"].any
    (fun p => containsSub (content.map Char.toLower) p.toList)

/-- Python `hay.find(pat)`: first index or -1. -/
def listFind (hay pat : List Char) : Int :=
  match findSubAux pat hay 0 with
  | some i => (i : Int)
  | none => -1

/-- Python `hay.find(pat, start)`. -/
def listFindFrom (hay pat : List Char) (s : Nat) : Int :=
  match findSubAux pat (hay.drop s) 0 with
  | some i => ((i + s : Nat) : Int)
  | none => -1

/-- The markdown-heading scan of `_extract_title` over the first five
lines. -/
def mdTitleScan : Nat → List (List Char) → Option (List Char)
  | 0, _ => none
  | _, [] => none
  | k + 1, ln :: rest =>
    let ls := pyStrip ln
    if "# ".toList.isPrefixOf ls then some (pyStrip (ls.drop 2))
    else if "## ".toList.isPrefixOf ls then some (pyStrip (ls.drop 3))
    else mdTitleScan k rest

/-- The HTML `<title>` extraction of `_extract_title`. -/
def htmlTitle (content : List Char) : Option (List Char) :=
  let low := content.map Char.toLower
  if containsSub low "<title>".toList then
    let s := listFind low "<title>".toList + 7
    let e := listFindFrom low "</title>".toList s.toNat
    if s > 6 ∧ e > s then some (pyStrip (pySlice content s e)) else none
  else none

/-- The first-line heuristic of `_extract_title`. -/
def firstLineTitle (lines : List (List Char)) : Option (List Char) :=
  match lines with
  | [] => none
  | fl :: _ =>
    let t := pyStrip fl
    if t ≠ [] ∧ t.length < 100 ∧ t.getLast? ≠ some '.' then some t else none

/-- `DocumentProcessor._extract_title`: markdown heading, then HTML title,
then a short non-sentence first line. -/
def extractTitle (content : List Char) : Option (List Char) :=
  match mdTitleScan 5 (splitNl content) with
  | some t => some t
  | none =>
    match htmlTitle content with
    | some t => some t
    | none => firstLineTitle (splitNl content)

/-- `DocumentProcessor.extract_metadata(content, base_metadata)`. -/
def extractMetadata (content : List Char) (base : Option Meta) : Meta :=
  let m0 := base.getD []
  let m1 := dictInsert m0 "content_length" (MVal.i content.length)
  let m2 := dictInsert m1 "word_count" (MVal.i (pySplitWs content).length)
  let m3 := dictInsert m2 "line_count" (MVal.i (content.count '\n' + 1 : Nat))
  let m4 := dictInsert m3 "char_count" (MVal.i content.length)
  let m5 := dictInsert m4 "content_type" (MVal.s
    (if looksLikeCode content then "code"
     else if looksLikeMarkdown content then "markdown"
     else if looksLikeHtml content then "html"
     else "text"))
  match extractTitle content with
  | some t => if t = [] then m5 else dictInsert m5 "title" (MVal.s (String.mk t))
  | none => m5

/-- `DocumentProcessor.validate_document(content, metadata)`: the error
message for invalid input, `none` when valid.  An empty metadata dict is
falsy in Python, so the reserved-key check is skipped for it. -/
def validateDocument (st : AppSettings) (content : List Char) (md : Meta) :
    Option String :=
  if pyStrip content = [] then some "Document content cannot be empty"
  else if (content.length : Int) > st.maxDocumentSizeMb * 1000000 then
    some ("Document content too large (max " ++ toString st.maxDocumentSizeMb ++ "MB)")
  else if md.isEmpty then none
  else
    match ["chunk_index", "start_char", "end_char", "chunk_size"].find?
        (fun k => (md.lookup k).isSome) with
    | some k => some ("Metadata key \x27" ++ k ++ "\x27 is reserved")
    | none => none

/-- A stored collection row (`collections` table). -/
structure CollectionRec where
  id : Nat
  name : String
  description : Option String
  embeddingDimension : Option Int
  distanceFunction : String
  metadata : Meta
deriving DecidableEq, Repr

/-- A stored document (chunk) row (`documents` table). -/
structure DocRow where
  id : Nat
  collectionId : Nat
  documentId : String
  content : List Char
  metadata : Meta
deriving DecidableEq, Repr

/-- The PostgreSQL storage state: both tables plus a fresh-id counter. -/
structure Store where
  collections : List CollectionRec
  documents : List DocRow
  nextId : Nat
deriving DecidableEq, Repr

/-- `PostgreSQLVectorStore.get_collection(name)`. -/
def getCollection (s : Store) (name : String) : Option CollectionRec :=
  s.collections.find? (fun c => c.name = name)

/-- `PostgreSQLVectorStore.create_collection(...)`: insert and return the
new row. -/
def createCollection (s : Store) (name : String) (desc : Option String)
    (dim : Option Int) (dist : String) (md : Meta) : CollectionRec × Store :=
  let c : CollectionRec := ⟨s.nextId, name, desc, dim, dist, md⟩
  (c, { s with collections := s.collections ++ [c], nextId := s.nextId + 1 })

/-- The batched commit loop of `PostgreSQLVectorStore.add_documents`: each
batch looks the collection up, inserts its rows and commits before the next
batch starts, so on failure the earlier batches remain persisted.  Items
are `(content, metadata, document_id)` triples. -/
def addDocumentsLoop (cn : String) (batchSize : Nat) :
    List (List Char × Meta × String) → List DocRow → Store →
      Except String (List DocRow) × Store
  | [], acc, s => (Except.ok acc, s)
  | x :: xs, acc, s =>
    match getCollection s cn with
    | none => (Except.error ("Collection \x27" ++ cn ++ "\x27 not found"), s)
    | some c =>
      let batch := x :: xs.take (batchSize - 1)
      let rows := ((List.range batch.length).zip batch).map
        (fun p => (⟨s.nextId + p.1, c.id, p.2.2.2, p.2.1, p.2.2.1⟩ : DocRow))
      let s2 := { s with documents := s.documents ++ rows,
                         nextId := s.nextId + batch.length }
      addDocumentsLoop cn batchSize (xs.drop (batchSize - 1)) (acc ++ rows) s2
termination_by items _ _ => items.length
decreasing_by simp [List.length_drop]; omega

/-- `PostgreSQLVectorStore.add_documents(collection_name, ...)`. -/
def addDocuments (cn : String) (items : List (List Char × Meta × String))
    (batchSize : Nat) (s : Store) : Except String (List DocRow) × Store :=
  addDocumentsLoop cn batchSize items [] s

/-- An HTTP error response (`HTTPException(status_code, detail)`). -/
structure HErr where
  status : Nat
  detail : String
deriving DecidableEq, Repr

/-- A `DocumentIngestRequest` payload. -/
structure IngestRequest where
  content : List Char
  metadata : Meta
  documentId : Option String
  chunkSize : Option Int
  chunkOverlap : Option Int
deriving DecidableEq, Repr

/-- A `DocumentIngestResponse`. -/
structure IngestResponse where
  documentId : String
  chunksCreated : Nat
  embeddingCount : Nat
  status : String
  processingTimeMs : Nat
deriving DecidableEq, Repr

/-- The per-chunk stored metadata built by `ingest_document`:
`{**chunk.metadata, document_id, chunk_index, start_char, end_char,
total_chunks}`. -/
def ingestChunkMeta (docId : String) (total : Nat) (ch : Chunk) : Meta :=
  dictInsert (dictInsert (dictInsert (dictInsert (dictInsert ch.metadata
    "document_id" (MVal.s docId))
    "chunk_index" (MVal.i ch.chunkIndex))
    "start_char" (MVal.i ch.startChar))
    "end_char" (MVal.i ch.endChar))
    "total_chunks" (MVal.i total)

/-- The collection-resolution step of `ingest_document`: the existing
collection is kept, a missing one is created (with the default description
and metadata of the source) before anything else happens. -/
def resolvedStore (s : Store) (cn : String) : Store :=
  match getCollection s cn with
  | some _ => s
  | none => (createCollection s cn (some ("Collection for " ++ cn)) none "cosine"
      [("created_by", MVal.s "documents.ingest"),
       ("search_type", MVal.s "fulltext")]).2

/-- The `ingest_document` endpoint (`POST
/collections/{name}/documents`): resolve or implicitly create the
collection, then validate, derive the id, preprocess, extract metadata,
chunk, and persist the chunks in batches.  `none` models the chunking loop
not terminating; otherwise the result pairs the HTTP outcome with the
resulting storage state. -/
def ingestDocument (st : AppSettings) (fuel : Nat) (cn : String)
    (req : IngestRequest) (s : Store) :
    Option (Except HErr IngestResponse × Store) :=
  let s1 := resolvedStore s cn
  match validateDocument st req.content req.metadata with
  | some emsg => some (Except.error ⟨400, emsg⟩, s1)
  | none =>
    let gen := generateDocumentId (String.mk req.content) (some req.metadata)
    let docId := match req.documentId with
      | some d => if d = "" then gen else d
      | none => gen
    let processed := preprocessContent req.content
    let em := extractMetadata processed (some req.metadata)
    match chunkDocument st fuel processed req.chunkSize req.chunkOverlap (some em) with
    | none => none
    | some [] => some (Except.error ⟨400, "No valid chunks generated from document"⟩, s1)
    | some chunks =>
      let items := ((List.range chunks.length).zip chunks).map (fun p =>
        (p.2.content, ingestChunkMeta docId chunks.length p.2,
         docId ++ "_chunk_" ++ toString p.1))
      match addDocuments cn items st.batchCommitSize s1 with
      | (Except.error e, s2) => some (Except.error ⟨500, e⟩, s2)
      | (Except.ok rows, s2) =>
        some (Except.ok ⟨docId, rows.length, 0, "completed", 0⟩, s2)

deriving instance DecidableEq for Except

/-- The empty storage state. -/
def store0 : Store := ⟨[], [], 0⟩

/-- An ingest request with empty content (fails validation). -/
def reqEmpty : IngestRequest := ⟨[], [], none, some 1000, some 200⟩

/-- Counterexample to C4: ingesting an invalid (empty) document into a
collection that does not exist reports the validation error, but only
after the missing collection has already been created — a storage write
happens despite the validation failure. -/
theorem claim_c4_counterexample :
    ingestDocument defaultSettings 1 "c" reqEmpty store0 =
      some (Except.error ⟨400, "Document content cannot be empty"⟩,
        ⟨[⟨0, "c", some "Collection for c", none, "cosine",
           [("created_by", MVal.s "documents.ingest"),
            ("search_type", MVal.s "fulltext")]⟩], [], 1⟩) ∧
    (⟨[⟨0, "c", some "Collection for c", none, "cosine",
        [("created_by", MVal.s "documents.ingest"),
         ("search_type", MVal.s "fulltext")]⟩], [], 1⟩ : Store).collections ≠
      store0.collections := by
  constructor
  · decide
  · decide

/-- C4 (amended): when validation fails, `ingest_document` reports the
validation error and persists no chunk (the documents table is unchanged);
the storage state is entirely unchanged when the collection already
existed, but a missing collection has already been created by then. -/
theorem claim_c4_validation_failure (st : AppSettings) (fuel : Nat)
    (cn : String) (req : IngestRequest) (s : Store) (emsg : String)
    (h : validateDocument st req.content req.metadata = some emsg) :
    ingestDocument st fuel cn req s =
      some (Except.error ⟨400, emsg⟩, resolvedStore s cn) ∧
    (resolvedStore s cn).documents = s.documents ∧
    ((getCollection s cn).isSome = true → resolvedStore s cn = s) := by
  refine ⟨?_, ?_, ?_⟩
  · simp only [ingestDocument, h]
  · rw [resolvedStore]
    rcases getCollection s cn with _ | c
    · rfl
    · rfl
  · intro hc
    rw [resolvedStore]
    rcases hg : getCollection s cn with _ | c
    · rw [hg] at hc
      cases hc
    · rfl

/-- A store holding one existing collection named `"c"`. -/
def storeC : Store := ⟨[⟨0, "c", none, none, "cosine", []⟩], [], 1⟩

/-- Witness for C4: an invalid document against the existing collection
`"c"` yields the 400 error and leaves the store untouched. -/
theorem claim_c4_validation_failure_witness :
    validateDocument defaultSettings reqEmpty.content reqEmpty.metadata =
      some "Document content cannot be empty" ∧
    (ingestDocument defaultSettings 1 "c" reqEmpty storeC =
      some (Except.error ⟨400, "Document content cannot be empty"⟩,
        resolvedStore storeC "c") ∧
     (resolvedStore storeC "c").documents = storeC.documents ∧
     ((getCollection storeC "c").isSome = true → resolvedStore storeC "c" = storeC)) :=
  ⟨by decide,
   claim_c4_validation_failure defaultSettings 1 "c" reqEmpty storeC
     "Document content cannot be empty" (by decide)⟩

/-- A row of the full-text search result set (the dict built per row in
`fulltext_search`, timestamps omitted). -/
structure SearchRow where
  id : Nat
  collectionId : Nat
  documentId : String
  content : List Char
  metadata : Meta
  score : ℚ
deriving DecidableEq, Repr

/-- `PostgreSQLVectorStore.fulltext_search(collection_name, query_text,
limit, metadata_filter, language)`.  The text-search engine is abstracted
by two parameters: `tsMatch lang query content` for
`content_tsvector @@ plainto_tsquery(lang, query)` and
`tsRank lang query content` for `ts_rank_cd(..., 32)`.  A missing
collection raises `ValueError`; otherwise the matching rows of the
collection are ranked, sorted by descending score and truncated to
`limit`.  The `metadata_filter` argument is accepted but never used by the
source. -/
def fulltextSearch (tsMatch : String → String → List Char → Bool)
    (tsRank : String → String → List Char → ℚ) (s : Store) (cn : String)
    (q : String) (lim : Nat) (mf : Option Meta) (lang : String) :
    Except String (List SearchRow) :=
  match getCollection s cn with
  | none => Except.error ("Collection \x27" ++ cn ++ "\x27 not found")
  | some c =>
    let rows := s.documents.filter
      (fun d => d.collectionId == c.id && tsMatch lang q d.content)
    let ranked := rows.map (fun d =>
      (⟨d.id, d.collectionId, d.documentId, d.content, d.metadata,
        tsRank lang q d.content⟩ : SearchRow))
    let sorted := ranked.mergeSort (fun a b => decide (b.score ≤ a.score))
    Except.ok (sorted.take lim)

/-- A `SimilaritySearchRequest`. -/
structure SearchRequest where
  query : String
  collectionId : String
  limit : Nat
  minScore : Option ℚ
  metadataFilter : Option Meta
deriving DecidableEq, Repr

/-- One mapped `SearchResult` of the search endpoint. -/
structure SearchResultM where
  documentId : String
  content : List Char
  score : ℚ
  metadata : Meta
  chunkIndex : Int
deriving DecidableEq, Repr

/-- A `SimilaritySearchResponse`. -/
structure SearchResponse where
  query : String
  results : List SearchResultM
  totalFound : Nat
  processingTimeMs : Nat
deriving DecidableEq, Repr

/-- `item.get("metadata", {}).get("chunk_index", 0)`. -/
def rowChunkIndex (md : Meta) : Int :=
  match md.lookup "chunk_index" with
  | some (MVal.i v) => v
  | _ => 0

/-- Map a raw search row to the API result shape. -/
def toSearchResult (r : SearchRow) : SearchResultM :=
  ⟨r.documentId, r.content, r.score, r.metadata, rowChunkIndex r.metadata⟩

/-- The `similarity_search` endpoint (`POST /search/similarity`): delegates
to `fulltext_search` with the configured language and maps any exception to
an HTTP 500 error with the exception text. -/
def searchSimilarity (tsMatch : String → String → List Char → Bool)
    (tsRank : String → String → List Char → ℚ) (s : Store)
    (req : SearchRequest) : Except HErr SearchResponse :=
  match fulltextSearch tsMatch tsRank s req.collectionId req.query req.limit
      req.metadataFilter "english" with
  | Except.error msg => Except.error ⟨500, "Full-text search failed: " ++ msg⟩
  | Except.ok rows =>
    Except.ok ⟨req.query, rows.map toSearchResult, rows.length, 0⟩

/-- C8: searching a collection name that does not exist raises the
collection-not-found `ValueError` in `fulltext_search`, and the search
endpoint reports it to the client as an HTTP error — never a silent empty
result list. -/
theorem claim_c8_collection_not_found
    (tsMatch : String → String → List Char → Bool)
    (tsRank : String → String → List Char → ℚ) (s : Store)
    (req : SearchRequest) (h : getCollection s req.collectionId = none) :
    fulltextSearch tsMatch tsRank s req.collectionId req.query req.limit
        req.metadataFilter "english" =
      Except.error ("Collection \x27" ++ req.collectionId ++ "\x27 not found") ∧
    searchSimilarity tsMatch tsRank s req =
      Except.error ⟨500, "Full-text search failed: " ++
        ("Collection \x27" ++ req.collectionId ++ "\x27 not found")⟩ := by
  constructor
  · simp only [fulltextSearch, h]
  · simp only [searchSimilarity, fulltextSearch, h]

/-- A match predicate that matches nothing (concrete instance). -/
def tsMatchNone : String → String → List Char → Bool := fun _ _ _ => false

/-- A rank function that always ranks zero (concrete instance). -/
def tsRankZero : String → String → List Char → ℚ := fun _ _ _ => 0

/-- Witness for C8: searching the empty store for collection `"missing"`. -/
theorem claim_c8_collection_not_found_witness :
    getCollection store0 "missing" = none ∧
    (fulltextSearch tsMatchNone tsRankZero store0 "missing" "q" 10 none "english" =
      Except.error ("Collection \x27" ++ "missing" ++ "\x27 not found") ∧
     searchSimilarity tsMatchNone tsRankZero store0 ⟨"q", "missing", 10, none, none⟩ =
      Except.error ⟨500, "Full-text search failed: " ++
        ("Collection \x27" ++ "missing" ++ "\x27 not found")⟩) :=
  ⟨by decide,
   claim_c8_collection_not_found tsMatchNone tsRankZero store0
     ⟨"q", "missing", 10, none, none⟩ (by decide)⟩

/-- C9: `fulltext_search` never reads its `metadata_filter` parameter, so
its result is the same for every filter value. -/
theorem claim_c9_metadata_filter_ignored
    (tsMatch : String → String → List Char → Bool)
    (tsRank : String → String → List Char → ℚ) (s : Store) (cn : String)
    (q : String) (lim : Nat) (f1 f2 : Option Meta) (lang : String) :
    fulltextSearch tsMatch tsRank s cn q lim f1 lang =
      fulltextSearch tsMatch tsRank s cn q lim f2 lang := rfl

/-- A `BatchIngestRequest` (the `collection_id` body field exists but the
endpoint uses the path parameter instead). -/
structure BatchIngestRequestM where
  documents : List IngestRequest
  collectionId : String
  processingMode : String
deriving DecidableEq, Repr

/-- A constructed `BatchIngestResponse` (all required fields present). -/
structure BatchIngestResponseM where
  jobId : String
  documentsQueued : Int
  estimatedCompletionTime : Option String
  statusEndpoint : String
  status : String
deriving DecidableEq, Repr

/-- The pydantic `ValidationError` text raised when a required `str` field
of `BatchIngestResponse` receives `None`. -/
def pydanticNoneError : String :=
  "validation error for BatchIngestResponse: none is not an allowed value for a required str field"

/-- Construction of a `BatchIngestResponse` (`src/api/models.py`):
`job_id` and `status_endpoint` are declared as required `str` Fields, so
pydantic raises a `ValidationError` when either is passed as `None`;
`estimated_completion_time` is `Optional[str]` and accepts `None`. -/
def mkBatchIngestResponse (jobId : Option String) (queued : Int)
    (ect : Option String) (statusEndpoint : Option String) (status : String) :
    Except String BatchIngestResponseM :=
  match jobId, statusEndpoint with
  | some j, some se => Except.ok ⟨j, queued, ect, se, status⟩
  | _, _ => Except.error pydanticNoneError

/-- Combined mutable state seen by the batch endpoint: storage plus the job
manager. -/
structure SysState where
  store : Store
  jm : JMState
deriving DecidableEq

/-- `JobManager.create_batch_job(documents, collection_name)`: register a
fresh queued job with `total_documents` set and defaults elsewhere. -/
def createBatchJob (jobId : String) (docs : List IngestRequest) (cn : String)
    (now : Int) (jm : JMState) : JMState :=
  { jm with jobs := jm.jobs ++
      [(jobId, ⟨jobId, cn, JStatus.queued, now, none, none,
        (docs.length : Int), 0, 0, 0, [], none, 0⟩)] }

/-- Python `str(e)` for a `starlette.HTTPException`. -/
def herrStr (e : HErr) : String := toString e.status ++ ": " ++ e.detail

/-- The synchronous per-document loop of `batch_ingest_documents`: each
document goes through the full `ingest_document` endpoint; successes and
failures are collected (errors as `(index, document_id, str(e))`) and
never abort the siblings.  `none` propagates a non-terminating ingest. -/
def syncIngestLoop (st : AppSettings) (fuel : Nat) (cn : String) :
    List (Nat × IngestRequest) → List IngestResponse →
      List (Nat × Option String × String) → Store →
      Option (List IngestResponse × List (Nat × Option String × String) × Store)
  | [], res, errs, s => some (res, errs, s)
  | (i, d) :: rest, res, errs, s =>
    match ingestDocument st fuel cn d s with
    | none => none
    | some (Except.ok r, s2) => syncIngestLoop st fuel cn rest (res ++ [r]) errs s2
    | some (Except.error e, s2) =>
      syncIngestLoop st fuel cn rest res (errs ++ [(i, d.documentId, herrStr e)]) s2

/-- The `batch_ingest_documents` endpoint (`POST
/collections/{name}/documents/batch`): reject oversized batches before any
work, then require the collection to exist; async mode registers a queued
job and answers `queued`; sync mode runs the per-document loop, drops the
collected errors, and then attempts to build the response with
`job_id=None` and `status_endpoint=None`, which fails the response model
validation and surfaces as HTTP 500. -/
def batchIngestDocuments (st : AppSettings) (fuel : Nat) (cn : String)
    (req : BatchIngestRequestM) (newJobId : String) (now : Int)
    (sys : SysState) : Option (Except HErr BatchIngestResponseM × SysState) :=
  if req.documents.length > st.maxBatchDocuments then
    some (Except.error ⟨400,
      "Batch too large: " ++ toString req.documents.length ++
      " documents (max " ++ toString st.maxBatchDocuments ++
      "). Use async processing mode for large batches."⟩, sys)
  else
    match getCollection sys.store cn with
    | none =>
      some (Except.error ⟨404, "Collection \x27" ++ cn ++ "\x27 not found"⟩, sys)
    | some _ =>
      if req.processingMode = "async" then
        let jm2 := createBatchJob newJobId req.documents cn now sys.jm
        match mkBatchIngestResponse (some newJobId) (req.documents.length : Int)
            none (some ("/api/v1/jobs/" ++ newJobId ++ "/status")) "queued" with
        | Except.ok resp => some (Except.ok resp, ⟨sys.store, jm2⟩)
        | Except.error e => some (Except.error ⟨500, e⟩, ⟨sys.store, jm2⟩)
      else
        match syncIngestLoop st fuel cn
            ((List.range req.documents.length).zip req.documents) [] [] sys.store with
        | none => none
        | some (_, _, s2) =>
          match mkBatchIngestResponse none (req.documents.length : Int)
              none none "completed" with
          | Except.ok resp => some (Except.ok resp, ⟨s2, sys.jm⟩)
          | Except.error e => some (Except.error ⟨500, e⟩, ⟨s2, sys.jm⟩)

/-- C5: a batch whose document count exceeds `max_batch_documents` is
rejected with a 400 capacity error before any work: the returned state is
exactly the input state, so no job is created and nothing is queued. -/
theorem claim_c5_batch_too_large (st : AppSettings) (fuel : Nat) (cn : String)
    (req : BatchIngestRequestM) (newJobId : String) (now : Int) (sys : SysState)
    (h : req.documents.length > st.maxBatchDocuments) :
    batchIngestDocuments st fuel cn req newJobId now sys =
      some (Except.error ⟨400,
        "Batch too large: " ++ toString req.documents.length ++
        " documents (max " ++ toString st.maxBatchDocuments ++
        "). Use async processing mode for large batches."⟩, sys) := by
  rw [batchIngestDocuments, if_pos h]

/-- Settings with a batch capacity of one document. -/
def smallBatchSettings : AppSettings := ⟨1000, 200, 5, 10, 1⟩

/-- Witness for C5: two documents against a capacity of one. -/
theorem claim_c5_batch_too_large_witness :
    ([reqEmpty, reqEmpty] : List IngestRequest).length >
      smallBatchSettings.maxBatchDocuments ∧
    batchIngestDocuments smallBatchSettings 1 "c"
        ⟨[reqEmpty, reqEmpty], "c", "async"⟩ "jid" 0 ⟨storeC, ⟨[], []⟩⟩ =
      some (Except.error ⟨400,
        "Batch too large: " ++ toString ([reqEmpty, reqEmpty] :
          List IngestRequest).length ++
        " documents (max " ++ toString smallBatchSettings.maxBatchDocuments ++
        "). Use async processing mode for large batches."⟩, ⟨storeC, ⟨[], []⟩⟩) :=
  ⟨by decide,
   claim_c5_batch_too_large smallBatchSettings 1 "c"
     ⟨[reqEmpty, reqEmpty], "c", "async"⟩ "jid" 0 ⟨storeC, ⟨[], []⟩⟩ (by decide)⟩

/-- C10: the claim describes the sync-mode return statement (status
`completed`, `documents_queued` = submitted count, errors dropped), but
that statement can never produce a response: `BatchIngestResponse` declares
`job_id` and `status_endpoint` as required `str` fields, so constructing it
with `job_id=None` raises a pydantic `ValidationError` and the endpoint
answers HTTP 500 instead.  Evaluated here on a one-document sync batch
against the existing collection `"c"`. -/
theorem claim_c10_sync_batch_response :
    batchIngestDocuments defaultSettings 1 "c" ⟨[reqEmpty], "c", "sync"⟩
        "jid" 0 ⟨storeC, ⟨[], []⟩⟩ =
      some (Except.error ⟨500, pydanticNoneError⟩, ⟨storeC, ⟨[], []⟩⟩) := by
  decide
